import Mathlib

/-!
Shallow embedding of the feedbackforge document-processing SDK.

The repository contains several prototype variants of the same pipeline:
- forge/utils.py, forge/auth.py, forge/config.py: the packaged helpers;
- production-sdk.py: DocumentProcessor with a backoff decorator, a batch
  runner with a progress callback, and DocumentProcessingScheduler;
- production-sdk (2).py: the variant with ValidationError on empty batches
  and a catch-all per-item failure handler;
- sdk_0.py: the flat prototype with its own retry loop and cron helper.

Each Lean definition below is translated from the named Python function.
Machine effects are made explicit: exceptions become Except values, the
wall clock becomes a Nat parameter, sleeps are recorded in a delays list,
transport calls are counted, and the nondeterministic completion order of
the thread pool is an explicit permutation parameter.
-/

namespace FeedbackForge

/-- Python exception values that the SDK code can raise or catch.
requestException covers requests.exceptions.RequestException and its
subclasses (ConnectionError, HTTPError from raise_for_status, and the
JSON decode error raised by response.json). -/
inductive PyExc where
  | requestException (msg : String)
  | apiError (msg : String)
  | nameError (msg : String)
  | otherExc (msg : String)
deriving DecidableEq

/-- str(e) for an embedded exception value. -/
def PyExc.message : PyExc → String
  | .requestException m => m
  | .apiError m => m
  | .nameError m => m
  | .otherExc m => m

/-- The ProcessingResult dataclass shared by the production-sdk variants.
processed_at is an abstract clock tick. metadata and the payload of a
response are kept opaque as optional strings. -/
structure ProcessingResult where
  url : String
  status : String
  processed_at : Nat
  metadata : Option String
  error : Option String
deriving DecidableEq

/-- What one POST to the /process endpoint can come back as, seen from
the calling Python code: a parsed 2xx body, a non-2xx status (so that
raise_for_status raises HTTPError), a network-level failure raised by
session.post, or a body that response.json cannot decode. -/
inductive HttpResp where
  | success (status : Option String) (metadata : Option String)
  | badStatus (code : Nat)
  | netFail (msg : String)
  | decodeFail (msg : String)
deriving DecidableEq

/-- A response that makes the transport call fail (anything but success). -/
def HttpResp.isFailure : HttpResp → Bool
  | .success _ _ => false
  | .badStatus _ => true
  | .netFail _ => true
  | .decodeFail _ => true

/-- How a Python retry helper can leave its caller: returning a value,
raising an exception, or falling off the end of the function body and
returning None. -/
inductive RetryResult (A : Type) where
  | returned (a : A)
  | raised (e : PyExc)
  | returnedNone
deriving DecidableEq

/-- Trace of one run of a retry helper: how it ended, how many times the
wrapped function was called, and the sleeps performed, in order. -/
structure RetryTrace (A : Type) where
  result : RetryResult A
  calls : Nat
  delays : List Nat
deriving DecidableEq

namespace Forge

/-- The for-loop of retry in forge/utils.py, iterating over the attempt
indices produced by range(retries). On success the value is returned at
once; on an exception at the last index the exception is re-raised; on an
earlier exception the loop sleeps delay * 2 ^ attempt and continues. The
wrapped function is indexed by the attempt number so that per-attempt
behaviour can be expressed. -/
def retryLoop {A : Type} (f : Nat → Except PyExc A) (delay retries : Nat) :
    List Nat → RetryTrace A
  | [] => ⟨.returnedNone, 0, []⟩
  | attempt :: rest =>
    match f attempt with
    | .ok a => ⟨.returned a, 1, []⟩
    | .error e =>
      if attempt = retries - 1 then ⟨.raised e, 1, []⟩
      else
        let t := retryLoop f delay retries rest
        ⟨t.result, t.calls + 1, delay * 2 ^ attempt :: t.delays⟩

/-- retry(func, retries=3, delay=2) from forge/utils.py. retries is an
Int because Python callers may pass a non-positive count, in which case
range(retries) is empty and the function returns None. -/
def retry {A : Type} (f : Nat → Except PyExc A) (retries : Int) (delay : Nat) :
    RetryTrace A :=
  retryLoop f delay retries.toNat (List.range retries.toNat)

end Forge

namespace Sdk0

/-- The retry helper of sdk_0.py. Unlike forge/utils.py it sleeps after
every failed attempt, the last one included, and after the loop it raises
a fresh generic Exception instead of the last cause. -/
def retryLoop {A : Type} (f : Nat → Except PyExc A) (delay : Nat) :
    List Nat → RetryTrace A
  | [] => ⟨.raised (.otherExc "all retries failed"), 0, []⟩
  | attempt :: rest =>
    match f attempt with
    | .ok a => ⟨.returned a, 1, []⟩
    | .error _ =>
      let t := retryLoop f delay rest
      ⟨t.result, t.calls + 1, delay * 2 ^ attempt :: t.delays⟩

/-- retry(func, retries=3, delay=2) from sdk_0.py. -/
def retry {A : Type} (f : Nat → Except PyExc A) (retries : Int) (delay : Nat) :
    RetryTrace A :=
  retryLoop f delay (List.range retries.toNat)

/-- The make_request closure inside call_process of sdk_0.py: one POST to
the /process endpoint followed by raise_for_status and response.json.
Every failure mode surfaces as a RequestException (HTTPError for a bad
status, the decode error being a RequestException subclass as well). The
parsed body is the pair of its status and metadata fields. -/
def make_request (transport : Nat → HttpResp) (attempt : Nat) :
    Except PyExc (Option String × Option String) :=
  match transport attempt with
  | .success st md => .ok (st, md)
  | .badStatus code => .error (.requestException ("HTTPError " ++ toString code))
  | .netFail m => .error (.requestException m)
  | .decodeFail m => .error (.requestException m)

end Sdk0

/-- Trace of one call through the backoff decorator: the value returned
or the exception that escaped, the number of calls to the wrapped
function, and the sleeps performed between attempts. -/
structure CallTrace (A : Type) where
  outcome : Except PyExc A
  calls : Nat
  delays : List Nat

namespace ProductionSdk

/-- Exceptions the backoff decorator in production-sdk.py is configured
to retry: requests.exceptions.RequestException and APIError. -/
def backoffMatches : PyExc → Bool
  | .requestException _ => true
  | .apiError _ => true
  | .nameError _ => false
  | .otherExc _ => false

/-- backoff.on_exception(backoff.expo, (RequestException, APIError),
max_tries=3): call the wrapped function; return its value on success;
on a matching exception either re-raise (when the try budget is spent)
or sleep the exponential delay and try again; re-raise a non-matching
exception at once. Iterates over the try indices given by
range(maxTries). -/
def backoffLoop {A : Type} (g : Nat → Except PyExc A) (maxTries : Nat) :
    List Nat → CallTrace A
  | [] => ⟨.error (.otherExc "backoff budget spent"), 0, []⟩
  | attempt :: rest =>
    match g attempt with
    | .ok a => ⟨.ok a, 1, []⟩
    | .error e =>
      if backoffMatches e then
        if attempt + 1 = maxTries then ⟨.error e, 1, []⟩
        else
          let t := backoffLoop g maxTries rest
          ⟨t.outcome, t.calls + 1, 2 ^ attempt :: t.delays⟩
      else ⟨.error e, 1, []⟩

/-- The backoff decorator applied to a function. -/
def backoff_on_exception {A : Type} (g : Nat → Except PyExc A) (maxTries : Nat) :
    CallTrace A :=
  backoffLoop g maxTries (List.range maxTries)

/-- Error string produced for the except branch of process_document. -/
def respErrorMsg : HttpResp → String
  | .success _ _ => ""
  | .badStatus code => "HTTPError " ++ toString code
  | .netFail m => m
  | .decodeFail m => m

/-- The body of DocumentProcessor.process_document in production-sdk.py:
POST the url, raise_for_status, parse the body, and build a completed
result; every RequestException (bad status, network failure, decode
failure) is caught inside the function and turned into a failed
ProcessingResult, so the body itself never raises. -/
def process_document_body (url : String) (resp : HttpResp) (now : Nat) :
    ProcessingResult :=
  match resp with
  | .success st md => ⟨url, st.getD "completed", now, md, none⟩
  | .badStatus code => ⟨url, "failed", now, none, some (respErrorMsg (.badStatus code))⟩
  | .netFail m => ⟨url, "failed", now, none, some m⟩
  | .decodeFail m => ⟨url, "failed", now, none, some m⟩

/-- DocumentProcessor.process_document of production-sdk.py together
with its backoff decorator. The transport is indexed by the attempt
number so that per-attempt responses can be expressed. -/
def process_document (transport : Nat → HttpResp) (url : String) (now : Nat) :
    CallTrace ProcessingResult :=
  backoff_on_exception (fun attempt => .ok (process_document_body url (transport attempt) now)) 3

/-- The as_completed loop of DocumentProcessor.process_batch in
production-sdk.py: each completed future appends its result, increments
the completed counter, and invokes the progress callback with
(completed, total). Returns the result list and the list of callback
invocations, in order. proc never raises because process_document
catches RequestException internally. -/
def batchLoop (proc : String → ProcessingResult) (total : Nat) :
    List String → Nat → List ProcessingResult × List (Nat × Nat)
  | [], _ => ([], [])
  | url :: rest, completed =>
    let r := proc url
    let p := batchLoop proc total rest (completed + 1)
    (r :: p.1, (completed + 1, total) :: p.2)

/-- DocumentProcessor.process_batch of production-sdk.py. There is no
empty-input validation: the futures dictionary is built from urls and
the loop walks the futures in completion order, an arbitrary permutation
of urls supplied here as the order parameter. -/
def process_batch (proc : String → ProcessingResult) (urls order : List String) :
    List ProcessingResult × List (Nat × Nat) :=
  batchLoop proc urls.length order 0

/-- A crontab entry as handled by python-crontab: an invocation command,
the comment used as the label, and the cadence expression. -/
structure CronJob where
  command : String
  comment : String
  schedule : String
deriving DecidableEq

/-- DocumentProcessingScheduler.schedule_job of production-sdk.py and
production-sdk (2).py: find_comment selects every job whose comment
equals the label, each is removed, then one new job is created with the
given command, comment, and schedule, and the crontab is written back. -/
def schedule_job (cron : List CronJob) (script_path schedule comment : String) :
    List CronJob :=
  (cron.filter (fun j => j.comment != comment)) ++
    [⟨"python " ++ script_path, comment, schedule⟩]

end ProductionSdk

namespace Sdk0

/-- create_cron_job of sdk_0.py: a new job is appended with the
hard-coded comment, without removing any existing job. -/
def create_cron_job (cron : List ProductionSdk.CronJob) (script_path schedule : String) :
    List ProductionSdk.CronJob :=
  cron ++ [⟨"python " ++ script_path, "Process Documents Cron Job", schedule⟩]

end Sdk0

namespace ProductionSdk2

/-- SDK exceptions a batch call in production-sdk (2).py can raise. -/
inductive SDKError where
  | validationError (msg : String)
deriving DecidableEq

/-- How the as_completed loop of production-sdk (2).py settles one
future: the result on success, and on any exception a failed
ProcessingResult built from the url of the future and str(e). -/
def futureOutcome (proc : String → Except PyExc ProcessingResult) (now : Nat)
    (url : String) : ProcessingResult :=
  match proc url with
  | .ok r => r
  | .error e => ⟨url, "failed", now, none, some e.message⟩

/-- DocumentProcessor.process_batch of production-sdk (2).py: an empty
url list raises ValidationError before any future is submitted;
otherwise one future per url is submitted (so the transport is invoked
urls.length times) and the loop settles the futures in completion order,
an arbitrary permutation of urls supplied as the order parameter. The
second component counts the per-item tasks submitted. -/
def process_batch (proc : String → Except PyExc ProcessingResult)
    (urls order : List String) (now : Nat) :
    Except SDKError (List ProcessingResult) × Nat :=
  if urls.isEmpty then (.error (.validationError "No URLs provided for processing"), 0)
  else (.ok (order.map (futureOutcome proc now)), urls.length)

end ProductionSdk2

namespace ForgeAuth

/-- Whether the name os is bound in the module scope of forge/auth.py.
That file imports only json and AuthenticationError, so the name os is
unbound there and evaluating it raises NameError. -/
def moduleBindsOs : Bool := false

/-- The AuthenticationError values Authenticator.authenticate can raise:
the key-file-not-found error raised inside the try block (re-raised as
is by the except AuthenticationError branch), and the wrapping error
built by the blanket except branch from any other exception. -/
inductive AuthError where
  | keyNotFound (path : String)
  | authenticationFailed (cause : PyExc)
deriving DecidableEq

/-- Evaluation of the expression os.path.exists(p) inside forge/auth.py:
were os bound it would consult the file system, but the module does not
bind os, so the evaluation raises NameError. -/
def evalOsPathExists (fsExists : String → Bool) (p : String) : Except PyExc Bool :=
  if moduleBindsOs then .ok (fsExists p)
  else .error (.nameError "name os is not defined")

/-- Authenticator.authenticate of forge/auth.py. The configuration value
for GCP_JSON_KEY_PATH arrives as an Option String (config.get may give
None); Python truthiness makes None and the empty string falsy, and the
or in the guard short-circuits, so os.path.exists is only evaluated for
a truthy path. File reading and JSON parsing are opaque collaborators;
any exception other than AuthenticationError raised inside the try block
is wrapped by the blanket except branch. -/
def authenticate (fsExists : String → Bool)
    (readFile : String → Except PyExc String)
    (parseJson : String → Except PyExc String)
    (gcpKeyPath : Option String) : Except AuthError String :=
  match gcpKeyPath with
  | none => .error (.keyNotFound "None")
  | some p =>
    if p == "" then .error (.keyNotFound p)
    else
      match evalOsPathExists fsExists p with
      | .error e => .error (.authenticationFailed e)
      | .ok ex =>
        if !ex then .error (.keyNotFound p)
        else
          match readFile p with
          | .error e => .error (.authenticationFailed e)
          | .ok content =>
            match parseJson content with
            | .error e => .error (.authenticationFailed e)
            | .ok creds => .ok creds

end ForgeAuth

namespace Pool

/-- Modelled from the spec: the bounded worker pool that process_batch
obtains from ThreadPoolExecutor(max_workers=limit). The executor's
contract, relied on by section 4.4 of the spec, is that a queued task is
started only while fewer than limit tasks are in flight. The state
counts queued, in-flight, and finished items of one batch. -/
structure PoolState where
  queued : Nat
  inflight : Nat
  done : Nat
deriving DecidableEq

/-- One scheduling event of the pool: start dispatches a queued item to
a free worker, which exists only while the in-flight count is below the
limit; finish retires an in-flight item with its terminal outcome. -/
inductive PoolStep (limit : Nat) : PoolState → PoolState → Prop
  | start (s : PoolState) (hq : s.queued ≠ 0) (hl : s.inflight < limit) :
      PoolStep limit s ⟨s.queued - 1, s.inflight + 1, s.done⟩
  | finish (s : PoolState) (hf : s.inflight ≠ 0) :
      PoolStep limit s ⟨s.queued, s.inflight - 1, s.done + 1⟩

/-- States the pool can reach from a given initial state by any
interleaving of scheduling events. -/
inductive Reach (limit : Nat) (init : PoolState) : PoolState → Prop
  | refl : Reach limit init init
  | step {s t : PoolState} (hr : Reach limit init s) (hs : PoolStep limit s t) :
      Reach limit init t

/-- The initial pool state of a batch of n items: all queued, none in
flight, none done. -/
def batchStart (n : Nat) : PoolState := ⟨n, 0, 0⟩

/-- The default max_workers of DocumentProcessor.process_batch. -/
def defaultMaxWorkers : Nat := 5

end Pool

/-- process_documents of sdk_0.py constructs ThreadPoolExecutor() with
no max_workers argument at all, so its pool limit is the library
default min(32, cpu_count + 4): a function of the machine, not the
concurrencyLimit parameter the other batch variants expose. -/
def Sdk0.poolLimit (cpuCount : Nat) : Nat := min 32 (cpuCount + 4)

/-- A per-item task that always succeeds, used as a concrete model of
process_document for witness instances. -/
def okProc : String → Except PyExc ProcessingResult :=
  fun u => .ok ⟨u, "completed", 0, none, none⟩

/-- A per-item task that fails on the url b and succeeds elsewhere. -/
def mixedProc : String → Except PyExc ProcessingResult :=
  fun u => if u == "b" then .error (.apiError "boom") else .ok ⟨u, "completed", 0, none, none⟩

/-- A per-item function for production-sdk.py batches, where
process_document never raises. -/
def constProc : String → ProcessingResult :=
  fun u => ⟨u, "completed", 0, none, none⟩

/-- A transport that always answers HTTP 400, a non-retryable
classification in the sense of the spec. -/
def http400Transport : Nat → HttpResp := fun _ => .badStatus 400

/-- The transport call of sdk_0.py applied to the HTTP 400 transport:
it raises an HTTPError-classified RequestException on every attempt. -/
def http400Call : Nat → Except PyExc (Option String × Option String) :=
  Sdk0.make_request http400Transport

/-- A call that fails with a connection error, a retryable
classification in the sense of the spec, on every attempt. -/
def connErrCall : Nat → Except PyExc (Option String × Option String) :=
  fun _ => .error (.requestException "ConnectionError")

/-- Helper: one failing step of the forge retry loop that still has
attempts left sleeps and recurses on the remaining attempt indices. -/
theorem Forge.retryLoop_cons_error {A : Type} (f : Nat → Except PyExc A)
    (delay retries attempt : Nat) (rest : List Nat) (e : PyExc)
    (hfa : f attempt = Except.error e) (hne : ¬ attempt = retries - 1) :
    Forge.retryLoop f delay retries (attempt :: rest) =
      ⟨(Forge.retryLoop f delay retries rest).result,
        (Forge.retryLoop f delay retries rest).calls + 1,
        delay * 2 ^ attempt :: (Forge.retryLoop f delay retries rest).delays⟩ := by
  simp [Forge.retryLoop, hfa, hne]

/-- Helper: on a function failing at every attempt, the forge retry loop
over the attempt indices a, a+1, ..., a+n (the tail of range(retries)
when a + n + 1 = retries) calls the function once per index, sleeps
delay * 2 ^ k after every index k except the last, and re-raises the
error of the last attempt. -/
theorem Forge.retryLoop_all_fail {A : Type} (f : Nat → Except PyExc A) (g : Nat → PyExc)
    (hf : ∀ k, f k = Except.error (g k)) (delay retries : Nat) :
    ∀ n a, a + n + 1 = retries →
      Forge.retryLoop f delay retries (List.range' a (n + 1)) =
        ⟨.raised (g (retries - 1)), n + 1, (List.range' a n).map (fun k => delay * 2 ^ k)⟩ := by
  intro n
  induction n with
  | zero =>
    intro a h
    have ha : a = retries - 1 := by omega
    simp [List.range'_succ, Forge.retryLoop, hf, ha]
  | succ m ih =>
    intro a h
    have hane : ¬ a = retries - 1 := by omega
    have ht := ih (a + 1) (by omega)
    rw [List.range'_succ,
      Forge.retryLoop_cons_error f delay retries a _ _ (hf a) hane, ht]
    simp [List.range'_succ]

/-- Claim C10: for every wrapped function, delay value, and retries
value at most 0, retry of forge/utils.py returns None without calling
the function even once and without raising: range(retries) is empty, so
the loop body never runs and the function body falls through. -/
theorem forge_retry_nonpositive {A : Type} (f : Nat → Except PyExc A)
    (retries : Int) (delay : Nat) (h : retries ≤ 0) :
    Forge.retry f retries delay = ⟨.returnedNone, 0, []⟩ := by
  have h0 : retries.toNat = 0 := by omega
  simp [Forge.retry, h0, Forge.retryLoop]

/-- Witness for C10 at retries = 0 with a concrete wrapped call. -/
theorem forge_retry_nonpositive_witness :
    Forge.retry connErrCall 0 2 = ⟨.returnedNone, 0, []⟩ :=
  forge_retry_nonpositive connErrCall 0 2 (by decide)

/-- Claim C5 (amended): retry of forge/utils.py, applied to a call that
fails with a retryable error on every attempt, makes exactly retries
calls, sleeps delay * 2 ^ (k - 1) before retry attempt k, with no sleep
before the first attempt and none after the final failed attempt, and
then re-raises the final error (which callers report as a failure).
sdk_0.py's retry deviates by sleeping once more after the final failed
attempt; production-sdk.py's process_document makes only one call. -/
theorem forge_retry_retryable_exhaustion {A : Type} (f : Nat → Except PyExc A)
    (g : Nat → PyExc) (hf : ∀ k, f k = Except.error (g k))
    (retries : Int) (delay : Nat) (h1 : 1 ≤ retries) :
    Forge.retry f retries delay =
      ⟨.raised (g (retries.toNat - 1)), retries.toNat,
        (List.range (retries.toNat - 1)).map (fun k => delay * 2 ^ k)⟩ := by
  obtain ⟨m, hm⟩ : ∃ m, retries.toNat = m + 1 := ⟨retries.toNat - 1, by omega⟩
  rw [Forge.retry, hm, List.range_eq_range']
  have := Forge.retryLoop_all_fail f g hf delay (m + 1) m 0 (by omega)
  rw [this]
  simp [List.range_eq_range']

/-- Witness for C5 at the default configuration retries = 3, delay = 2
with a connection-error call: three calls, sleeps 2 and 4 between them,
and the final error re-raised. -/
theorem forge_retry_retryable_exhaustion_witness :
    Forge.retry connErrCall 3 2 =
      ⟨.raised (.requestException "ConnectionError"), 3, [2, 4]⟩ := by
  have h := forge_retry_retryable_exhaustion connErrCall
    (fun _ => .requestException "ConnectionError") (fun _ => rfl) 3 2 (by decide)
  simpa using h

/-- Claim C5 counterexample: the retry helper of sdk_0.py, one of the
cited retrying executors, sleeps delay * 2 ^ (attempt) after every
failed attempt including the final one: with retries = 3 and delay = 2
it performs three calls but three sleeps, 2, 4 and then 8 after the
final failed attempt, before raising a fresh generic exception. -/
theorem sdk0_retry_sleeps_after_last :
    Sdk0.retry connErrCall 3 2 =
      ⟨.raised (.otherExc "all retries failed"), 3, [2, 4, 8]⟩ := rfl

/-- Claim C4 counterexample: retry of forge/utils.py applies no
retryability classification, so a transport call that fails with HTTP
400 on every attempt is retried like a transient failure: three
transport calls and backoff sleeps of 2 and 4, not a single call. -/
theorem forge_retry_retries_http400 :
    Forge.retry http400Call 3 2 =
      ⟨.raised (.requestException "HTTPError 400"), 3, [2, 4]⟩ := rfl

/-- Claim C4 (amended): in production-sdk.py, any transport failure,
non-retryable or not, leads to exactly one transport call, no backoff
sleep, and an immediately returned failed result: process_document
catches every RequestException inside its body and returns the failed
ProcessingResult, so the backoff decorator never observes an exception
and never retries. -/
theorem process_document_single_call (transport : Nat → HttpResp) (url : String)
    (now : Nat) (hfail : (transport 0).isFailure = true) :
    (ProductionSdk.process_document transport url now).calls = 1 ∧
    (ProductionSdk.process_document transport url now).delays = [] ∧
    ∃ r, (ProductionSdk.process_document transport url now).outcome = Except.ok r ∧
      r.url = url ∧ r.status = "failed" := by
  refine ⟨rfl, rfl, ProductionSdk.process_document_body url (transport 0) now, rfl, ?_, ?_⟩
  · cases h : transport 0 with
    | success st md => rw [h] at hfail; simp [HttpResp.isFailure] at hfail
    | badStatus c => simp [ProductionSdk.process_document_body, h]
    | netFail m => simp [ProductionSdk.process_document_body, h]
    | decodeFail m => simp [ProductionSdk.process_document_body, h]
  · cases h : transport 0 with
    | success st md => rw [h] at hfail; simp [HttpResp.isFailure] at hfail
    | badStatus c => simp [ProductionSdk.process_document_body, h]
    | netFail m => simp [ProductionSdk.process_document_body, h]
    | decodeFail m => simp [ProductionSdk.process_document_body, h]

/-- Witness for C4 at the HTTP 400 transport. -/
theorem process_document_single_call_witness :
    (ProductionSdk.process_document http400Transport "u" 0).calls = 1 ∧
    (ProductionSdk.process_document http400Transport "u" 0).delays = [] ∧
    ∃ r, (ProductionSdk.process_document http400Transport "u" 0).outcome = Except.ok r ∧
      r.url = "u" ∧ r.status = "failed" :=
  process_document_single_call http400Transport "u" 0 rfl

/-- Claim C9: for every file system, file reader, JSON parser, and
configured GCP_JSON_KEY_PATH value, Authenticator.authenticate of
forge/auth.py raises AuthenticationError and never returns credentials.
A falsy path takes the explicit key-not-found error; a truthy path
reaches os.path.exists, whose evaluation raises NameError because the
module never binds the name os, and the blanket except branch wraps
that NameError as AuthenticationError, so the success path of the
function body is unreachable. -/
theorem authenticate_always_fails (fsExists : String → Bool)
    (readFile : String → Except PyExc String)
    (parseJson : String → Except PyExc String)
    (gcpKeyPath : Option String) :
    ∃ e, ForgeAuth.authenticate fsExists readFile parseJson gcpKeyPath =
      Except.error e := by
  cases gcpKeyPath with
  | none => exact ⟨.keyNotFound "None", rfl⟩
  | some p =>
    cases hp : p == "" with
    | true =>
      exact ⟨.keyNotFound p, by simp [ForgeAuth.authenticate, hp]⟩
    | false =>
      exact ⟨.authenticationFailed (.nameError "name os is not defined"),
        by simp [ForgeAuth.authenticate, hp, ForgeAuth.evalOsPathExists,
          ForgeAuth.moduleBindsOs]⟩

/-- Helper: removing every cron job carrying a comment leaves no job
counted under that comment. -/
theorem countP_filter_comment_ne (l : List ProductionSdk.CronJob) (c : String) :
    (l.filter (fun j => j.comment != c)).countP (fun j => j.comment == c) = 0 := by
  simp only [List.countP_eq_zero]
  intro j hj
  have h2 := List.of_mem_filter hj
  simpa using h2

/-- Claim C8 (amended): DocumentProcessingScheduler.schedule_job of
production-sdk.py and production-sdk (2).py is idempotent in the
comment label: it removes every existing job with that comment before
adding the new one, so whatever the prior crontab contents, exactly one
entry with the label remains; sdk_0.py's create_cron_job, by contrast,
removes nothing and accumulates duplicate entries. -/
theorem schedule_job_unique_label (cron : List ProductionSdk.CronJob)
    (script_path schedule comment : String) :
    (ProductionSdk.schedule_job cron script_path schedule comment).countP
      (fun j => j.comment == comment) = 1 := by
  unfold ProductionSdk.schedule_job
  rw [List.countP_append, countP_filter_comment_ne]
  simp [List.countP_cons]

/-- Claim C8 counterexample: registering twice under the label that
create_cron_job of sdk_0.py hard-codes leaves two scheduled entries
with that label, not one. -/
theorem create_cron_job_accumulates :
    ((Sdk0.create_cron_job
        (Sdk0.create_cron_job [] "job.py" "0 18 * * *") "job.py" "0 18 * * *").countP
      (fun j => j.comment == "Process Documents Cron Job")) = 2 := rfl

/-- Claim C3 (amended): process_batch of production-sdk (2).py raises
ValidationError on an empty url list before submitting any per-item
task, so zero transport calls are made; the variants in
production-sdk.py and sdk_0.py instead return an empty result list. -/
theorem process_batch_empty_validation (proc : String → Except PyExc ProcessingResult)
    (order : List String) (now : Nat) :
    ProductionSdk2.process_batch proc [] order now =
      (.error (.validationError "No URLs provided for processing"), 0) := rfl

/-- Claim C3 counterexample: process_batch of production-sdk.py, one of
the cited batch operations, accepts the empty input list and returns an
empty result list as a vacuous success instead of raising
ValidationError. -/
theorem process_batch_empty_returns_nil :
    ProductionSdk.process_batch constProc [] [] = ([], []) := rfl

/-- Helper: the outcome the batch loop of production-sdk (2).py records
for a url carries that url, provided the per-item task reports its own
url on success, which process_document does. -/
theorem futureOutcome_url (proc : String → Except PyExc ProcessingResult) (now : Nat)
    (hurl : ∀ u r, proc u = Except.ok r → r.url = u) (u : String) :
    (ProductionSdk2.futureOutcome proc now u).url = u := by
  unfold ProductionSdk2.futureOutcome
  cases h : proc u with
  | ok r => exact hurl u r h
  | error e => rfl

/-- Claim C1: for every non-empty input list of N urls and every
completion order of the pool, process_batch of production-sdk (2).py
returns a list of exactly N outcomes whose references are a permutation
of the input urls: one outcome per input item, no duplicates and no
omissions, regardless of which items fail. -/
theorem process_batch_one_outcome_per_item
    (proc : String → Except PyExc ProcessingResult)
    (urls order : List String) (now : Nat)
    (hne : urls ≠ []) (hperm : List.Perm order urls)
    (hurl : ∀ u r, proc u = Except.ok r → r.url = u) :
    ∃ rs, (ProductionSdk2.process_batch proc urls order now).1 = Except.ok rs ∧
      rs.length = urls.length ∧
      List.Perm (rs.map ProcessingResult.url) urls := by
  have hempty : urls.isEmpty = false := by
    cases urls with
    | nil => exact absurd rfl hne
    | cons a l => rfl
  refine ⟨order.map (ProductionSdk2.futureOutcome proc now), ?_, ?_, ?_⟩
  · simp [ProductionSdk2.process_batch, hempty]
  · simp [hperm.length_eq]
  · have hmap : (order.map (ProductionSdk2.futureOutcome proc now)).map
        ProcessingResult.url = order := by
      rw [List.map_map]
      have hpt : ∀ u ∈ order,
          (ProcessingResult.url ∘ ProductionSdk2.futureOutcome proc now) u = id u :=
        fun u _ => futureOutcome_url proc now hurl u
      rw [List.map_congr_left hpt, List.map_id]
    rw [hmap]
    exact hperm

/-- Witness for C1 on a two-item batch completing in reversed order. -/
theorem process_batch_one_outcome_per_item_witness :
    ∃ rs, (ProductionSdk2.process_batch okProc ["a", "b"] ["b", "a"] 0).1 = Except.ok rs ∧
      rs.length = (["a", "b"] : List String).length ∧
      List.Perm (rs.map ProcessingResult.url) ["a", "b"] := by
  refine process_batch_one_outcome_per_item okProc ["a", "b"] ["b", "a"] 0
    (by decide) (List.Perm.swap "a" "b" []) ?_
  intro u r h
  cases h
  rfl

/-- Claim C2: process_batch of production-sdk (2).py catches every
per-item failure at the item boundary: for a non-empty batch the call
returns a result list (it never re-raises a per-item failure), every
completed item contributes an outcome so a failing item never deprives
a sibling of its own terminal outcome, and each item whose task raised
is recorded as a Failed outcome carrying that item's url and the
message of its exception. -/
theorem process_batch_captures_failures
    (proc : String → Except PyExc ProcessingResult)
    (urls order : List String) (now : Nat) (hne : urls ≠ []) :
    ∃ rs, (ProductionSdk2.process_batch proc urls order now).1 = Except.ok rs ∧
      rs.length = order.length ∧
      ∀ u e, u ∈ order → proc u = Except.error e →
        (⟨u, "failed", now, none, some e.message⟩ : ProcessingResult) ∈ rs := by
  have hempty : urls.isEmpty = false := by
    cases urls with
    | nil => exact absurd rfl hne
    | cons a l => rfl
  refine ⟨order.map (ProductionSdk2.futureOutcome proc now), ?_, by simp, ?_⟩
  · simp [ProductionSdk2.process_batch, hempty]
  · intro u e hu hpe
    have hout : ProductionSdk2.futureOutcome proc now u =
        ⟨u, "failed", now, none, some e.message⟩ := by
      simp [ProductionSdk2.futureOutcome, hpe]
    rw [← hout]
    exact List.mem_map_of_mem _ hu

/-- Witness for C2 on a two-item batch whose second item always fails. -/
theorem process_batch_captures_failures_witness :
    ∃ rs, (ProductionSdk2.process_batch mixedProc ["a", "b"] ["b", "a"] 0).1 = Except.ok rs ∧
      rs.length = (["b", "a"] : List String).length ∧
      ∀ u e, u ∈ (["b", "a"] : List String) → mixedProc u = Except.error e →
        (⟨u, "failed", 0, none, some e.message⟩ : ProcessingResult) ∈ rs :=
  process_batch_captures_failures mixedProc ["a", "b"] ["b", "a"] 0 (by decide)

/-- Helper: the progress invocations of the as_completed loop of
production-sdk.py starting from a completed count c are the pairs
(c + 1, total), (c + 2, total), ... one per remaining future. -/
theorem batchLoop_progress (proc : String → ProcessingResult) (total : Nat) :
    ∀ (order : List String) (c : Nat),
      (ProductionSdk.batchLoop proc total order c).2 =
        (List.range' (c + 1) order.length).map (fun k => (k, total)) := by
  intro order
  induction order with
  | nil => intro c; rfl
  | cons u rest ih =>
    intro c
    simp [ProductionSdk.batchLoop, ih (c + 1), List.range'_succ]

/-- Helper: the pairs built from an interval of naturals have strictly
increasing first components. -/
theorem pairwise_lt_range_map (s n total : Nat) :
    List.Pairwise (fun a b => a.1 < b.1)
      ((List.range' s n).map (fun k => (k, total))) := by
  rw [List.pairwise_map]
  exact (List.pairwise_lt_range' s n).imp (fun h => h)

/-- Helper: the last progress pair over an interval of length n starting
at 1 is (n, n) once n is positive. -/
theorem getLast_range_map (n total : Nat) (hn : 1 ≤ n) :
    ((List.range' 1 n).map (fun k => (k, total))).getLast? = some (n, total) := by
  obtain ⟨m, rfl⟩ : ∃ m, n = m + 1 := ⟨n - 1, by omega⟩
  rw [List.range'_concat, List.map_append]
  simp [Nat.add_comm]

/-- Claim C6: for every batch of N items with a progress observer
attached and any completion order, process_batch of production-sdk.py
invokes the observer exactly N times, with the reported completed
counts strictly increasing as 1, 2, ..., N against the fixed total N,
and the final invocation reporting (N, N); the per-item task is
arbitrary, so the property holds when items fail as well. -/
theorem process_batch_progress (proc : String → ProcessingResult)
    (urls order : List String) (hne : urls ≠ []) (hperm : List.Perm order urls) :
    (ProductionSdk.process_batch proc urls order).2 =
      (List.range' 1 urls.length).map (fun k => (k, urls.length)) ∧
    (ProductionSdk.process_batch proc urls order).2.length = urls.length ∧
    List.Pairwise (fun a b => a.1 < b.1) (ProductionSdk.process_batch proc urls order).2 ∧
    (ProductionSdk.process_batch proc urls order).2.getLast? =
      some (urls.length, urls.length) := by
  have hcb : (ProductionSdk.process_batch proc urls order).2 =
      (List.range' 1 urls.length).map (fun k => (k, urls.length)) := by
    rw [ProductionSdk.process_batch, batchLoop_progress, hperm.length_eq]
  have hlen : 1 ≤ urls.length := by
    cases urls with
    | nil => exact absurd rfl hne
    | cons a l => simp
  refine ⟨hcb, ?_, ?_, ?_⟩
  · rw [hcb]; simp
  · rw [hcb]; exact pairwise_lt_range_map 1 urls.length urls.length
  · rw [hcb]; exact getLast_range_map urls.length urls.length hlen

/-- Witness for C6 on a two-item batch completing in reversed order. -/
theorem process_batch_progress_witness :
    (ProductionSdk.process_batch constProc ["a", "b"] ["b", "a"]).2 =
      (List.range' 1 (["a", "b"] : List String).length).map
        (fun k => (k, (["a", "b"] : List String).length)) ∧
    (ProductionSdk.process_batch constProc ["a", "b"] ["b", "a"]).2.length =
      (["a", "b"] : List String).length ∧
    List.Pairwise (fun a b => a.1 < b.1)
      (ProductionSdk.process_batch constProc ["a", "b"] ["b", "a"]).2 ∧
    (ProductionSdk.process_batch constProc ["a", "b"] ["b", "a"]).2.getLast? =
      some ((["a", "b"] : List String).length, (["a", "b"] : List String).length) :=
  process_batch_progress constProc ["a", "b"] ["b", "a"] (by decide)
    (List.Perm.swap "a" "b" [])

/-- Claim C7 counterexample: the claim also covers process_documents of
sdk_0.py, whose pool is constructed with no max_workers, so its limit
is min(32, cpu_count + 4) rather than the claimed concurrencyLimit
(default 5). On a machine with two CPUs that limit is 6, and for a
batch of ten items (twice the claimed limit) the pool reaches a state
with six transport calls in flight, exceeding the claimed bound of
five: the batch operation does not keep at most concurrencyLimit calls
outstanding. -/
theorem sdk0_pool_exceeds_claimed_limit :
    Pool.Reach (Sdk0.poolLimit 2) (Pool.batchStart 10) ⟨4, 6, 0⟩ ∧
    Pool.defaultMaxWorkers < (⟨4, 6, 0⟩ : Pool.PoolState).inflight := by
  refine ⟨?_, by decide⟩
  have h1 : Pool.Reach (Sdk0.poolLimit 2) (Pool.batchStart 10) ⟨9, 1, 0⟩ :=
    Pool.Reach.step Pool.Reach.refl
      (Pool.PoolStep.start ⟨10, 0, 0⟩ (by decide) (by decide))
  have h2 := Pool.Reach.step h1 (Pool.PoolStep.start ⟨9, 1, 0⟩ (by decide) (by decide))
  have h3 := Pool.Reach.step h2 (Pool.PoolStep.start ⟨8, 2, 0⟩ (by decide) (by decide))
  have h4 := Pool.Reach.step h3 (Pool.PoolStep.start ⟨7, 3, 0⟩ (by decide) (by decide))
  have h5 := Pool.Reach.step h4 (Pool.PoolStep.start ⟨6, 4, 0⟩ (by decide) (by decide))
  exact Pool.Reach.step h5 (Pool.PoolStep.start ⟨5, 5, 0⟩ (by decide) (by decide))

/-- Claim C7 (amended): in the pools the DocumentProcessor variants
construct with an explicit bound, ThreadPoolExecutor(max_workers=limit)
with limit defaulting to 5, every state reachable from the start of a
batch of any size, including sizes of at least twice the limit, has at
most limit items in flight: a start event requires a free worker and a
finish event only lowers the in-flight count. process_documents of
sdk_0.py passes no max_workers, so its bound is the machine-dependent
library default min(32, cpu_count + 4), not concurrencyLimit. -/
theorem pool_inflight_bounded (limit n : Nat) (s : Pool.PoolState)
    (hr : Pool.Reach limit (Pool.batchStart n) s) : s.inflight ≤ limit := by
  induction hr with
  | refl => exact Nat.zero_le _
  | step hr hs ih =>
    cases hs with
    | start hq hl => exact hl
    | finish hf => exact Nat.le_trans (Nat.sub_le _ _) ih

/-- Witness for C7: with the default limit of five workers and a batch
of ten items, the state after dispatching the first item is reachable
and respects the bound. -/
theorem pool_inflight_bounded_witness :
    (⟨9, 1, 0⟩ : Pool.PoolState).inflight ≤ Pool.defaultMaxWorkers :=
  pool_inflight_bounded Pool.defaultMaxWorkers 10 ⟨9, 1, 0⟩
    (Pool.Reach.step Pool.Reach.refl
      (Pool.PoolStep.start (Pool.batchStart 10) (by decide) (by decide)))

end FeedbackForge
